import Mathlib

/-!
Verification of the securegen backend (a Tauri desktop credential generator).

The Rust sources under src-tauri are shallowly embedded here:
* Rust `String`/`&str` values are embedded as `List Char` (abbreviated `Str`);
  `str::len()` (UTF-8 byte length) is embedded as `utf8Len`.
* Machine integers are embedded as `Nat` with explicit `% 2 ^ w` at the points
  where the Rust code performs a wrapping cast; `u8::saturating_sub` on `Nat`
  coincides with truncated subtraction.
* The `rand` crate RNG is embedded as an explicit deterministic stream of
  naturals (`Rng`); every generator threads it explicitly, so the embedded
  generators are pure functions of the RNG state.
* The EFF long word list is a data asset that is not part of the examined
  sources; functions that read it take the list as an explicit parameter and
  a small modelled list is used for concrete instances (see
  `EFF_LONG_WORD_LIST_model`).
* The `sha2` crate's SHA-256 is embedded concretely (`sha256Bytes`), validated
  against the standard test vectors.
* The f32 weighted average in `evaluate_username_security` is abstracted as an
  explicit `combine` parameter so that the theorems hold for every rounding
  behaviour of the floating-point computation; `combine_scores_int` is the
  integer approximation used for concrete instances.
-/

namespace Securegen

/-- Embedded Rust string: a list of unicode scalar values. -/
abbrev Str := List Char

/-- Rust `str::len()`: the UTF-8 byte length of a string. -/
def utf8Len (s : Str) : Nat :=
  s.foldr (fun c n => c.utf8Size + n) 0

/-- Rust `str::contains(pat)` for a string pattern: substring containment. -/
def isSubstrOf (needle hay : Str) : Bool :=
  needle.isPrefixOf hay ||
    match hay with
    | [] => false
    | _ :: t => isSubstrOf needle t

/-- Rust `str::trim()`: remove leading and trailing whitespace. -/
def rtrim (s : Str) : Str :=
  ((s.dropWhile Char.isWhitespace).reverse.dropWhile Char.isWhitespace).reverse

/-- Test that a string is empty after trimming (`s.trim().is_empty()`). -/
def isBlank (s : Str) : Bool :=
  (rtrim s).isEmpty

/-- Rust `str::to_lowercase()`, restricted to the simple per-character case
mapping (the data this program inspects is ASCII). -/
def toLowerStr (s : Str) : Str :=
  s.map Char.toLower

/-- Rust `str::trim_end_matches(|c| c.is_numeric())`. -/
def dropTrailingDigits (s : Str) : Str :=
  (s.reverse.dropWhile Char.isDigit).reverse

/-- Concatenation map over lists (Rust iterator `flat_map`/`collect`). -/
def cmap (f : α → List β) : List α → List β
  | [] => []
  | a :: t => f a ++ cmap f t

/-- Take a prefix of a string by UTF-8 byte count (Rust slicing `s[..i]`;
clamped to the last character boundary not beyond `i`). -/
def takeBytes : Nat → Str → Str
  | _, [] => []
  | i, c :: cs => if c.utf8Size ≤ i then c :: takeBytes (i - c.utf8Size) cs else []

/-- Drop a prefix of a string by UTF-8 byte count (Rust slicing `s[i..]`). -/
def dropBytes : Nat → Str → Str
  | _, [] => []
  | i, c :: cs => if c.utf8Size ≤ i then dropBytes (i - c.utf8Size) cs else c :: cs

/-! ## RNG model

The `rand` crate generators used by the sources (`thread_rng`, seeded
`ChaCha8Rng` in tests) are abstracted as a deterministic stream of naturals
with an explicit position; each primitive draw consumes one element. -/

/-- Abstract deterministic random generator state. -/
structure Rng where
  stream : Nat → Nat
  pos : Nat

/-- Draw one raw value and advance the generator. -/
def Rng.next (r : Rng) : Nat × Rng :=
  (r.stream r.pos, ⟨r.stream, r.pos + 1⟩)

/-- Rust `rng.gen_range(lo..hi)` (half-open): a value in `[lo, hi)`. -/
def Rng.genRange (r : Rng) (lo hi : Nat) : Nat × Rng :=
  (lo + r.next.1 % (hi - lo), r.next.2)

/-- Rust `slice::choose(&mut rng)` on a non-empty list, returning a default
for the (unreachable) empty case. -/
def Rng.chooseStr (r : Rng) (l : List Str) : Str × Rng :=
  (l.getD (r.next.1 % l.length) [], r.next.2)

/-! ## SHA-256 (the `sha2` crate dependency of the device-identity subsystem)

A concrete executable embedding of SHA-256 over byte lists; 32-bit words are
naturals kept below `2 ^ 32` by explicit reduction. -/

/-- The 32-bit word modulus. -/
def w32 : Nat := 4294967296

/-- Rotate a 32-bit word right by `n` (for `x < 2 ^ 32`, `0 < n < 32`). -/
def rotr32 (n x : Nat) : Nat :=
  ((x >>> n) ||| (x <<< (32 - n))) % w32

/-- SHA-256 schedule sigma 0. -/
def schedSig0 (x : Nat) : Nat := rotr32 7 x ^^^ rotr32 18 x ^^^ (x >>> 3)

/-- SHA-256 schedule sigma 1. -/
def schedSig1 (x : Nat) : Nat := rotr32 17 x ^^^ rotr32 19 x ^^^ (x >>> 10)

/-- SHA-256 round sigma 0. -/
def roundSig0 (x : Nat) : Nat := rotr32 2 x ^^^ rotr32 13 x ^^^ rotr32 22 x

/-- SHA-256 round sigma 1. -/
def roundSig1 (x : Nat) : Nat := rotr32 6 x ^^^ rotr32 11 x ^^^ rotr32 25 x

/-- SHA-256 choice function. -/
def shaCh (e f g : Nat) : Nat := (e &&& f) ^^^ ((e ^^^ 4294967295) &&& g)

/-- SHA-256 majority function. -/
def shaMaj (a b c : Nat) : Nat := (a &&& b) ^^^ (a &&& c) ^^^ (b &&& c)

/-- The 64 SHA-256 round constants (decimal). -/
def shaK : List Nat :=
  [1116352408, 1899447441, 3049323471, 3921009573, 961987163, 1508970993,
   2453635748, 2870763221, 3624381080, 310598401, 607225278, 1426881987,
   1925078388, 2162078206, 2614888103, 3248222580, 3835390401, 4022224774,
   264347078, 604807628, 770255983, 1249150122, 1555081692, 1996064986,
   2554220882, 2821834349, 2952996808, 3210313671, 3336571891, 3584528711,
   113926993, 338241895, 666307205, 773529912, 1294757372, 1396182291,
   1695183700, 1986661051, 2177026350, 2456956037, 2730485921, 2820302411,
   3259730800, 3345764771, 3516065817, 3600352804, 4094571909, 275423344,
   430227734, 506948616, 659060556, 883997877, 958139571, 1322822218,
   1537002063, 1747873779, 1955562222, 2024104815, 2227730452, 2361852424,
   2428436474, 2756734187, 3204031479, 3329325298]

/-- The SHA-256 hash state: eight 32-bit words. -/
structure Hash8 where
  a : Nat
  b : Nat
  c : Nat
  d : Nat
  e : Nat
  f : Nat
  g : Nat
  h : Nat

/-- SHA-256 initial hash value (decimal). -/
def shaInit : Hash8 :=
  ⟨1779033703, 3144134277, 1013904242, 2773480762,
   1359893119, 2600822924, 528734635, 1541459225⟩

/-- One SHA-256 compression round with constant `k` and schedule word `w`. -/
def shaRound (s : Hash8) (kw : Nat × Nat) : Hash8 :=
  let t1 := (s.h + roundSig1 s.e + shaCh s.e s.f s.g + kw.1 + kw.2) % w32
  let t2 := (roundSig0 s.a + shaMaj s.a s.b s.c) % w32
  ⟨(t1 + t2) % w32, s.a, s.b, s.c, (s.d + t1) % w32, s.e, s.f, s.g⟩

/-- Extend a 16-word message block to the 64-word schedule (`k` words left). -/
def extSched (ws : List Nat) : Nat → List Nat
  | 0 => ws
  | k + 1 =>
    let n := ws.length
    let w := (schedSig1 (ws.getD (n - 2) 0) + ws.getD (n - 7) 0 +
              schedSig0 (ws.getD (n - 15) 0) + ws.getD (n - 16) 0) % w32
    extSched (ws ++ [w]) k

/-- Compress one 16-word block into the hash state. -/
def shaCompress (st : Hash8) (block : List Nat) : Hash8 :=
  let sched := extSched block 48
  let r := (shaK.zip sched).foldl shaRound st
  ⟨(st.a + r.a) % w32, (st.b + r.b) % w32, (st.c + r.c) % w32,
   (st.d + r.d) % w32, (st.e + r.e) % w32, (st.f + r.f) % w32,
   (st.g + r.g) % w32, (st.h + r.h) % w32⟩

/-- Group a byte list into big-endian 32-bit words (the length is a multiple
of 4 after padding). -/
def bytesToWords : List Nat → List Nat
  | b1 :: b2 :: b3 :: b4 :: rest =>
    (b1 * 16777216 + b2 * 65536 + b3 * 256 + b4) :: bytesToWords rest
  | _ => []

/-- Process `k` 16-word blocks from the word list. -/
def shaBlocks (st : Hash8) (ws : List Nat) : Nat → Hash8
  | 0 => st
  | k + 1 => shaBlocks (shaCompress st (ws.take 16)) (ws.drop 16) k

/-- SHA-256 message padding: `0x80`, zeros to 56 mod 64, 8-byte big-endian
bit length. -/
def shaPad (msg : List Nat) : List Nat :=
  let len := msg.length
  let zeros := (120 - (len + 1) % 64) % 64
  let bits := len * 8
  msg ++ [0x80] ++ List.replicate zeros 0 ++
    [(bits / 2 ^ 56) % 256, (bits / 2 ^ 48) % 256, (bits / 2 ^ 40) % 256,
     (bits / 2 ^ 32) % 256, (bits / 2 ^ 24) % 256, (bits / 2 ^ 16) % 256,
     (bits / 2 ^ 8) % 256, bits % 256]

/-- Split a 32-bit word into four big-endian bytes. -/
def wordToBytes (w : Nat) : List Nat :=
  [(w / 2 ^ 24) % 256, (w / 2 ^ 16) % 256, (w / 2 ^ 8) % 256, w % 256]

/-- The 32-byte digest of a final hash state. -/
def digestBytes (s : Hash8) : List Nat :=
  wordToBytes s.a ++ wordToBytes s.b ++ wordToBytes s.c ++ wordToBytes s.d ++
  wordToBytes s.e ++ wordToBytes s.f ++ wordToBytes s.g ++ wordToBytes s.h

/-- SHA-256 of a byte list. -/
def sha256Bytes (msg : List Nat) : List Nat :=
  let padded := bytesToWords (shaPad msg)
  digestBytes (shaBlocks shaInit padded (padded.length / 16))

/-- UTF-8 encoding of a string (`str::as_bytes()`). -/
def utf8Encode (s : Str) : List Nat :=
  cmap (fun c =>
    let v := c.toNat
    if v < 0x80 then [v]
    else if v < 0x800 then
      [0xC0 + v / 64, 0x80 + v % 64]
    else if v < 0x10000 then
      [0xE0 + v / 4096, 0x80 + (v / 64) % 64, 0x80 + v % 64]
    else
      [0xF0 + v / 262144, 0x80 + (v / 4096) % 64, 0x80 + (v / 64) % 64,
       0x80 + v % 64]) s

/-- One byte rendered as two uppercase hexadecimal characters
(Rust `format!` with the 02X spec). -/
def byteToHexUpper (b : Nat) : Str :=
  let table := "0123456789ABCDEF".toList
  [table.getD ((b / 16) % 16) '0', table.getD (b % 16) '0']

/-- Embeds `format_machine_id` (main.rs): SHA-256 the machine id, render the
first 8 digest bytes as uppercase hex and group them as
HWID-XXXX-XXXX-XXXX-XXXX. -/
def format_machine_id (machine_id : Str) : Str :=
  let hex := cmap byteToHexUpper ((sha256Bytes (utf8Encode machine_id)).take 8)
  "HWID-".toList ++ hex.take 4 ++ '-' :: ((hex.drop 4).take 4) ++
    '-' :: ((hex.drop 8).take 4) ++ '-' :: ((hex.drop 12).take 4)

/-! ## Password request shapes and the legacy adapter (main.rs) -/

/-- Legacy flat password configuration (main.rs `PasswordConfig`);
`length` is a `u32`. -/
structure PasswordConfig where
  length : Nat
  include_uppercase : Bool
  include_lowercase : Bool
  include_numbers : Bool
  include_symbols : Bool
  exclude_similar : Bool
  exclude_ambiguous : Bool
  custom_exclusions : Str
deriving DecidableEq

/-- Structured password request (generators/password.rs
`PasswordGeneratorRequest`); `length` is a `u8`. -/
structure PasswordGeneratorRequest where
  lowercase : Bool
  uppercase : Bool
  numbers : Bool
  special : Bool
  length : Nat
  avoid_ambiguous : Bool
  min_lowercase : Option Nat
  min_uppercase : Option Nat
  min_number : Option Nat
  min_special : Option Nat
deriving DecidableEq

/-- Embeds `impl From of PasswordConfig for PasswordGeneratorRequest`
(main.rs); `config.length as u8` is the wrapping u32-to-u8 cast, i.e.
reduction modulo 256. -/
def PasswordGeneratorRequest.ofConfig (config : PasswordConfig) :
    PasswordGeneratorRequest where
  lowercase := config.include_lowercase
  uppercase := config.include_uppercase
  numbers := config.include_numbers
  special := config.include_symbols
  length := config.length % 256
  avoid_ambiguous := config.exclude_similar
  min_lowercase := none
  min_uppercase := none
  min_number := none
  min_special := none

/-! ## Password/passphrase strength evaluator (main.rs) -/

/-- Strength report returned by `calculate_password_strength`. -/
structure PasswordStrength where
  score : Nat
  crack_times_display : Str
  feedback : List Str
deriving DecidableEq

/-- Feedback block of the third-party zxcvbn estimator. -/
structure ZxcvbnFeedback where
  warning : Option Str
  suggestions : List Str
deriving DecidableEq

/-- Output of the third-party zxcvbn estimator: a score (0 to 4 by its
contract) and optional feedback. The estimator itself is an external
dependency and is abstracted by this interface. -/
structure ZxcvbnEstimate where
  score : Nat
  feedback : Option ZxcvbnFeedback
deriving DecidableEq

/-- The `match estimate.score()` block of `calculate_password_strength`:
the fixed crack-time display bands. -/
def crackTimeBand (score : Nat) : Str :=
  match score with
  | 0 => "Very weak - could be cracked instantly".toList
  | 1 => "Weak - could be cracked in minutes".toList
  | 2 => "Fair - could be cracked in hours to days".toList
  | 3 => "Good - could take months to crack".toList
  | 4 => "Strong - would take years to crack".toList
  | _ => "Unknown strength".toList

/-- Embeds `calculate_password_strength` (main.rs) as a function of the
estimator output: warning first, then suggestions; score is
`(score as f64 * 25.0) as u8`, a saturating cast, hence `min (25 * s) 255`. -/
def calculate_password_strength (estimate : ZxcvbnEstimate) :
    PasswordStrength :=
  let feedback :=
    match estimate.feedback with
    | some f =>
      (match f.warning with
       | some w => [w]
       | none => []) ++ f.suggestions
    | none => []
  { score := min (estimate.score * 25) 255
    crack_times_display := crackTimeBand estimate.score
    feedback := feedback }

/-! ## Passphrase generator (generators/passphrase.rs) -/

/-- Embeds `PassphraseError`. -/
inductive PassphraseError where
  | InvalidNumWords (minimum maximum : Nat)
deriving DecidableEq

/-- Embeds `PassphraseGeneratorRequest`; `num_words` is a `u8`. -/
structure PassphraseGeneratorRequest where
  num_words : Nat
  word_separator : Str
  capitalize : Bool
  include_number : Bool
deriving DecidableEq

/-- Embeds `MINIMUM_PASSPHRASE_NUM_WORDS`. -/
def MINIMUM_PASSPHRASE_NUM_WORDS : Nat := 3

/-- Embeds `MAXIMUM_PASSPHRASE_NUM_WORDS`. -/
def MAXIMUM_PASSPHRASE_NUM_WORDS : Nat := 20

/-- Embeds `ValidPassphraseGeneratorOptions`. -/
structure ValidPassphraseGeneratorOptions where
  num_words : Nat
  word_separator : Str
  capitalize : Bool
  include_number : Bool
deriving DecidableEq

/-- Embeds `PassphraseGeneratorRequest::validate_options`. -/
def validate_options (self : PassphraseGeneratorRequest) :
    Except PassphraseError ValidPassphraseGeneratorOptions :=
  if ¬(MINIMUM_PASSPHRASE_NUM_WORDS ≤ self.num_words ∧
       self.num_words ≤ MAXIMUM_PASSPHRASE_NUM_WORDS) then
    Except.error (PassphraseError.InvalidNumWords MINIMUM_PASSPHRASE_NUM_WORDS
      MAXIMUM_PASSPHRASE_NUM_WORDS)
  else
    Except.ok ⟨self.num_words, self.word_separator, self.capitalize,
      self.include_number⟩

/-- Embeds `gen_words` (parameterised by the word-list asset): draw
`num_words` words with replacement, threading the RNG. -/
def gen_words (wl : List Str) (rng : Rng) : Nat → List Str × Rng
  | 0 => ([], rng)
  | n + 1 =>
    let w := (rng.chooseStr wl).1
    let rest := gen_words wl (rng.chooseStr wl).2 n
    (w :: rest.1, rest.2)

/-- The single decimal digit appended by `include_number_in_words`
(`rng.gen_range(0..=9).to_string()`). -/
def digitChar (d : Nat) : Char := Char.ofNat (48 + d)

/-- Embeds `include_number_in_words`: append one random decimal digit to the
word at one random index. -/
def include_number_in_words (rng : Rng) (words : List Str) :
    List Str × Rng :=
  let number_idx := (rng.genRange 0 words.length).1
  let rng' := (rng.genRange 0 words.length).2
  let d := (rng'.genRange 0 10).1
  (words.set number_idx (words.getD number_idx [] ++ [digitChar d]),
   (rng'.genRange 0 10).2)

/-- Embeds `capitalize_first_letter` (identical in passphrase.rs and
username.rs), with the single-character uppercase mapping. -/
def capitalize_first_letter (s : Str) : Str :=
  match s with
  | [] => []
  | f :: rest => f.toUpper :: rest

/-- Embeds `capitalize_words`. -/
def capitalize_words (words : List Str) : List Str :=
  words.map capitalize_first_letter

/-- Rust `Vec::join(sep)`. -/
def joinSep (sep : Str) : List Str → Str
  | [] => []
  | [w] => w
  | w :: w' :: t => w ++ sep ++ joinSep sep (w' :: t)

/-- The word list assembled by `passphrase_with_rng` just before joining:
generated words, then the optional digit, then optional capitalization. -/
def passphrase_words (wl : List Str) (rng : Rng)
    (options : ValidPassphraseGeneratorOptions) : List Str :=
  let ws := (gen_words wl rng options.num_words).1
  let rng' := (gen_words wl rng options.num_words).2
  let ws2 := if options.include_number then
    (include_number_in_words rng' ws).1 else ws
  if options.capitalize then capitalize_words ws2 else ws2

/-- Embeds `passphrase_with_rng` (parameterised by the word-list asset). -/
def passphrase_with_rng (wl : List Str) (rng : Rng)
    (options : ValidPassphraseGeneratorOptions) : Str :=
  joinSep options.word_separator (passphrase_words wl rng options)

/-! ## Occurrence counting (Rust `str::matches(pat).count()`)

Non-overlapping leftmost-first matches of a non-empty pattern. `skip`
tracks how many characters of a just-matched pattern remain to be
consumed, keeping the recursion structural. -/

/-- Count matches of the pattern `c :: cs` in the remainder of the haystack,
skipping `skip` characters first. -/
def countOccGo (c : Char) (cs : Str) : Nat → Str → Nat
  | _, [] => 0
  | k + 1, _ :: t => countOccGo c cs k t
  | 0, a :: t =>
    if (c :: cs).isPrefixOf (a :: t) then
      1 + countOccGo c cs cs.length t
    else
      countOccGo c cs 0 t

/-- Count non-overlapping occurrences of `needle` in `hay` (0 for the empty
needle, which no caller uses). -/
def countOcc (needle hay : Str) : Nat :=
  match needle with
  | [] => 0
  | c :: cs => countOccGo c cs 0 hay

/-! ## Username generator (generators/username.rs) -/

/-- Embeds `UsernameError`. HTTP-transport errors (`Http`,
`ResponseContent`) carry `reqwest` types; they are embedded with their
data reduced to a status code and message. -/
inductive UsernameError where
  | InvalidApiKey
  | DomainRejected
  | RateLimitExceeded
  | Http
  | Unknown
  | ResponseContent (status : Nat) (message : Str)
  | InvalidEmail (email : Str)
  | EmptyDomain
  | EmptyWebsiteName
  | IncompleteApiConfig (service : Str)
deriving DecidableEq

/-- Embeds the `UsernameStrength` generation-band enum of username.rs
(distinct from the security report of main.rs). -/
inductive UsernameStrength where
  | Basic
  | Standard
  | Strong
  | Maximum
deriving DecidableEq

/-- Embeds `AppendType`. -/
inductive AppendType where
  | Random
  | WebsiteName (website : Str)
deriving DecidableEq

/-- Embeds `ForwarderServiceType` with each provider's credential shape. -/
inductive ForwarderServiceType where
  | AddyIo (api_token domain base_url : Str)
  | DuckDuckGo (token : Str)
  | Firefox (api_token : Str)
  | Fastmail (api_token : Str)
  | ForwardEmail (api_token domain : Str)
  | SimpleLogin (api_key base_url : Str)
deriving DecidableEq

/-- Embeds `UsernameGeneratorRequest`. -/
inductive UsernameGeneratorRequest where
  | Word (capitalize include_number : Bool) (strength : UsernameStrength)
  | Subaddress (ty : AppendType) (email : Str)
  | Catchall (ty : AppendType) (domain : Str)
  | Forwarded (service : ForwarderServiceType) (website : Option Str)
deriving DecidableEq

/-- Embeds `validate_email`: non-blank, contains an at sign, and the
untrimmed byte length is at least 5. -/
def validate_email (email : Str) : Except UsernameError Unit :=
  if isBlank email || !(email.contains '@') || utf8Len email < 5 then
    Except.error (UsernameError.InvalidEmail email)
  else
    Except.ok ()

/-- Embeds `validate_append_type`. -/
def validate_append_type (append_type : AppendType) :
    Except UsernameError Unit :=
  match append_type with
  | AppendType.Random => Except.ok ()
  | AppendType.WebsiteName website =>
    if isBlank website then Except.error UsernameError.EmptyWebsiteName
    else Except.ok ()

/-- Embeds `validate_forwarder_service`: note that AddyIo's and
SimpleLogin's `base_url` fields are matched with `..` in the source and are
never inspected. -/
def validate_forwarder_service (service : ForwarderServiceType) :
    Except UsernameError Unit :=
  match service with
  | ForwarderServiceType.AddyIo api_token domain _ =>
    if isBlank api_token || isBlank domain then
      Except.error (UsernameError.IncompleteApiConfig "AddyIo".toList)
    else Except.ok ()
  | ForwarderServiceType.DuckDuckGo token =>
    if isBlank token then
      Except.error (UsernameError.IncompleteApiConfig "DuckDuckGo".toList)
    else Except.ok ()
  | ForwarderServiceType.Firefox api_token =>
    if isBlank api_token then
      Except.error (UsernameError.IncompleteApiConfig "Firefox".toList)
    else Except.ok ()
  | ForwarderServiceType.Fastmail api_token =>
    if isBlank api_token then
      Except.error (UsernameError.IncompleteApiConfig "Fastmail".toList)
    else Except.ok ()
  | ForwarderServiceType.ForwardEmail api_token domain =>
    if isBlank api_token || isBlank domain then
      Except.error (UsernameError.IncompleteApiConfig "ForwardEmail".toList)
    else Except.ok ()
  | ForwarderServiceType.SimpleLogin api_key _ =>
    if isBlank api_key then
      Except.error (UsernameError.IncompleteApiConfig "SimpleLogin".toList)
    else Except.ok ()

/-- Embeds `UsernameGeneratorRequest::validate`. -/
def UsernameGeneratorRequest.validate (self : UsernameGeneratorRequest) :
    Except UsernameError Unit :=
  match self with
  | UsernameGeneratorRequest.Word _ _ _ => Except.ok ()
  | UsernameGeneratorRequest.Subaddress ty email => do
    validate_email email
    validate_append_type ty
  | UsernameGeneratorRequest.Catchall ty domain => do
    if isBlank domain then throw UsernameError.EmptyDomain
    validate_append_type ty
  | UsernameGeneratorRequest.Forwarded service _ =>
    validate_forwarder_service service

/-- The alphabet of `random_lowercase_string`. -/
def LOWERCASE_ALPHANUMERICAL : Str := "abcdefghijklmnopqrstuvwxyz1234567890".toList

/-- Embeds `random_lowercase_string`: sample `length` characters from the
36-symbol alphabet. -/
def random_lowercase_string (rng : Rng) (length : Nat) : Str × Rng :=
  match length with
  | 0 => ([], rng)
  | n + 1 =>
    let c := LOWERCASE_ALPHANUMERICAL.getD
      (rng.next.1 % LOWERCASE_ALPHANUMERICAL.length) 'a'
    let rest := random_lowercase_string rng.next.2 n
    (c :: rest.1, rest.2)

/-- Rust `str::split_once(c)`: the parts before and after the first
occurrence of `c`. -/
def splitOnceChar (c : Char) : Str → Option (Str × Str)
  | [] => none
  | a :: t =>
    if a = c then some ([], t)
    else
      match splitOnceChar c t with
      | none => none
      | some (l, r) => some (a :: l, r)

/-- Embeds `username_subaddress`: split the email at its first at sign and
produce local-part + plus + middle + at + domain. The source `expect`s the
at sign (guaranteed by prior validation); the missing case is `none`. -/
def username_subaddress (rng : Rng) (ty : AppendType) (email : Str) :
    Option Str :=
  match splitOnceChar '@' email with
  | none => none
  | some (email_begin, email_end) =>
    let email_middle :=
      match ty with
      | AppendType.Random => (random_lowercase_string rng 8).1
      | AppendType.WebsiteName website => website
    some (email_begin ++ '+' :: email_middle ++ '@' :: email_end)

/-- Embeds `username_catchall`: middle + at + domain. -/
def username_catchall (rng : Rng) (ty : AppendType) (domain : Str) : Str :=
  let email_start :=
    match ty with
    | AppendType.Random => (random_lowercase_string rng 8).1
    | AppendType.WebsiteName website => website
  email_start ++ '@' :: domain

/-! ## Username security heuristic evaluator (main.rs)

All word-list based helpers take the list as an explicit parameter (the
asset is not among the examined sources, see the module docstring). -/

/-- Embeds the `UsernameStrength` report struct of main.rs (renamed: the
name collides with the generation-band enum of username.rs). -/
structure UsernameStrengthReport where
  score : Nat
  security_level : Str
  feedback : List Str
  privacy_score : Nat
  uniqueness_score : Nat
deriving DecidableEq

/-- Embeds the `DictionaryUsage` classification. -/
inductive DictionaryUsage where
  | SecureEFFWord (word_length : Nat)
  | WeakDictionary
  | CompoundWords
  | NonDictionary
deriving DecidableEq

/-- Embeds `is_compound_eff_word`: words of byte length 6 to 20 that split
at some byte position into two word-list members of length at least 3. -/
def is_compound_eff_word (wl : List Str) (word : Str) : Bool :=
  if utf8Len word < 6 || 20 < utf8Len word then false
  else
    (List.range' 3 (utf8Len word - 5)).any fun i =>
      let first_part := takeBytes i word
      let second_part := dropBytes i word
      decide (3 ≤ utf8Len first_part) && decide (3 ≤ utf8Len second_part) &&
        wl.contains first_part && wl.contains second_part

/-- Embeds `is_compound_word` (the source duplicates the body of
`is_compound_eff_word` verbatim). -/
def is_compound_word (wl : List Str) (word : Str) : Bool :=
  if utf8Len word < 6 || 20 < utf8Len word then false
  else
    (List.range' 3 (utf8Len word - 5)).any fun i =>
      let first_part := takeBytes i word
      let second_part := dropBytes i word
      decide (3 ≤ utf8Len first_part) && decide (3 ≤ utf8Len second_part) &&
        wl.contains first_part && wl.contains second_part

/-- Rust `str::strip_suffix`. -/
def stripSuf (suf s : Str) : Option Str :=
  if suf.isSuffixOf s then some (s.take (s.length - suf.length)) else none

/-- The suffix list of `is_word_variation`. -/
def variationSuffixes : List Str :=
  ["s", "es", "ed", "ing", "er", "est", "ly", "tion", "sion", "ness",
   "ment", "able", "ible"].map String.toList

/-- The prefix list of `is_word_variation`. -/
def variationPrefixes : List Str :=
  ["un", "re", "pre", "dis", "mis", "over", "under", "out"].map String.toList

/-- Embeds `is_word_variation`: a word-list word plus a common suffix, or a
common prefix plus a word-list word. -/
def is_word_variation (wl : List Str) (word : Str) : Bool :=
  variationSuffixes.any (fun suf =>
    match stripSuf suf word with
    | some variation =>
      decide (3 ≤ utf8Len variation) && wl.contains variation
    | none => false) ||
  variationPrefixes.any (fun pre =>
    pre.isPrefixOf word &&
      (let root := word.drop pre.length
       decide (3 ≤ utf8Len root) && wl.contains root))

/-- The numeric suffix list of `is_word_with_common_suffix`. -/
def numericSuffixes : List Str :=
  ["1", "2", "3", "4", "5", "6", "7", "8", "9", "0",
   "12", "123", "01", "02", "03", "99", "00"].map String.toList

/-- The year suffixes 1990 to 2024 of `is_word_with_common_suffix`. -/
def yearSuffixes : List Str :=
  (List.range 35).map fun i => Nat.toDigits 10 (1990 + i)

/-- Embeds `is_word_with_common_suffix`: a word-list word plus a numeric
suffix or (for words of length at least 7) a year suffix. -/
def is_word_with_common_suffix (wl : List Str) (word : Str) : Bool :=
  numericSuffixes.any (fun suf =>
    suf.isSuffixOf word &&
      (let root := word.take (word.length - suf.length)
       decide (3 ≤ utf8Len root) && wl.contains root)) ||
  (decide (7 ≤ utf8Len word) &&
    yearSuffixes.any (fun year =>
      year.isSuffixOf word &&
        (let root := word.take (word.length - 4)
         decide (3 ≤ utf8Len root) && wl.contains root)))

/-- The weak-pattern list of `is_weak_dictionary_pattern`. -/
def weakPatterns : List Str :=
  ["password", "username", "account", "profile", "login",
   "admin", "user", "guest", "test", "demo", "temp"].map String.toList

/-- Embeds `is_weak_dictionary_pattern`. -/
def is_weak_dictionary_pattern (wl : List Str) (word : Str) : Bool :=
  is_word_variation wl word || is_word_with_common_suffix wl word ||
    weakPatterns.any (fun pat => isSubstrOf pat word)

/-- Embeds `is_likely_generated_username`: a word-list word plus exactly 4
digits, a word-list word of length at least 7, or a compound of two
word-list words. -/
def is_likely_generated_username (wl : List Str) (username : Str) : Bool :=
  let username_lower := toLowerStr username
  let base_word := dropTrailingDigits username_lower
  (decide (3 ≤ utf8Len base_word) && decide (base_word ≠ username_lower) &&
    wl.contains base_word &&
    (let number_part := username_lower.drop base_word.length
     decide (utf8Len number_part = 4) && number_part.all Char.isDigit)) ||
  (decide (7 ≤ utf8Len username_lower) && wl.contains username_lower) ||
  is_compound_eff_word wl username_lower

/-- Embeds `analyze_dictionary_usage`. -/
def analyze_dictionary_usage (wl : List Str) (username : Str) :
    DictionaryUsage :=
  let username_lower := toLowerStr username
  if wl.contains username_lower then
    DictionaryUsage.SecureEFFWord (utf8Len username_lower)
  else
    let base_word := dropTrailingDigits username_lower
    let has_numbers := base_word ≠ username_lower
    if has_numbers ∧ 3 ≤ utf8Len base_word ∧ wl.contains base_word then
      DictionaryUsage.SecureEFFWord (utf8Len base_word)
    else if has_numbers ∧ 3 ≤ utf8Len base_word ∧
        is_compound_eff_word wl base_word then
      DictionaryUsage.SecureEFFWord (utf8Len base_word)
    else if is_compound_eff_word wl username_lower then
      DictionaryUsage.SecureEFFWord (utf8Len username_lower)
    else if is_compound_word wl username_lower then
      DictionaryUsage.CompoundWords
    else if is_weak_dictionary_pattern wl username_lower then
      DictionaryUsage.WeakDictionary
    else
      DictionaryUsage.NonDictionary

/-- The age-suffix list of `contains_personal_info_patterns`. -/
def agePatterns : List Str :=
  ["18", "19", "20", "21", "22", "23", "24", "25", "30", "40",
   "50"].map String.toList

/-- The personal-word list of `contains_personal_info_patterns`. -/
def personalPatterns : List Str :=
  ["name", "real", "official", "personal", "my", "the"].map String.toList

/-- Embeds `contains_personal_info_patterns`: birth-year fragments,
age-pattern endings, then personal words, each checked in turn. -/
def contains_personal_info_patterns (username : Str) : Bool :=
  if isSubstrOf "199".toList username || isSubstrOf "200".toList username ||
     isSubstrOf "201".toList username then true
  else if agePatterns.any (fun pat => pat.isSuffixOf username) then true
  else if personalPatterns.any (fun pat => isSubstrOf pat username) then true
  else false

/-- Embeds `contains_sequential_patterns`. -/
def contains_sequential_patterns (username : Str) : Bool :=
  (["123", "234", "345", "456", "567", "678", "789", "abc", "bcd",
    "cde"].map String.toList).any fun pat => isSubstrOf pat username

/-- The common word/brand list of `evaluate_username_security`. -/
def common_words : List Str :=
  ["admin", "administrator", "user", "guest", "test", "demo", "example",
   "facebook", "google", "apple", "microsoft", "amazon", "twitter",
   "instagram", "skype", "discord", "telegram", "whatsapp", "youtube",
   "netflix", "spotify", "password", "login", "email", "mail", "contact",
   "support", "help", "john", "jane", "mike", "sarah", "alex", "chris",
   "david", "mary", "2023", "2024", "abc", "qwerty", "asdf"].map
    String.toList

/-- The personal-information block of `evaluate_username_security`: a
penalty of 25 privacy (saturating) on a pattern match, otherwise a
length-scaled bonus of 10 or 15. -/
def personalInfoStep (length : Nat) (username_lower : Str)
    (privacy_score : Nat) (feedback : List Str) : Nat × List Str :=
  if contains_personal_info_patterns username_lower then
    (privacy_score - 25,
     feedback ++ ["May contain personal information patterns".toList])
  else if length ≤ 4 then (privacy_score + 10, feedback)
  else (privacy_score + 15, feedback)

/-- The short-advisory test of the final hard cap
(`f.contains("too short") || f.contains("Short")`). -/
def shortFeedbackCheck (f : Str) : Bool :=
  isSubstrOf "too short".toList f || isSubstrOf "Short".toList f

/-- The score-based recommendation block at the end of
`evaluate_username_security`. -/
def recommendationsFor (score : Nat) : List Str :=
  if score < 30 then
    ["Consider using a more unique username".toList,
     "Avoid common words and personal information".toList]
  else if score < 60 then
    ["Username security could be improved".toList,
     "Consider adding numbers or making it more unique".toList]
  else if score < 80 then ["Good username security".toList]
  else ["Excellent username security".toList]

/-- The `security_level` banding of `evaluate_username_security` (the
fallback arm for scores above 100 coincides with the top band). -/
def securityLevelBand (score : Nat) : Str :=
  if score ≤ 25 then "Very Poor - High Risk".toList
  else if score ≤ 45 then "Poor - Easily Guessable".toList
  else if score ≤ 65 then "Fair - Some Privacy Concerns".toList
  else if score ≤ 80 then "Good - Reasonably Secure".toList
  else "Excellent - Highly Secure".toList

/-- The tail of `evaluate_username_security`: weighted combination (the f32
average abstracted as `combine`), clamp to 100, hard cap at 25 for byte
length at most 4 with the prepended advisory, recommendations, banding. -/
def finalizeReport (combine : Nat → Nat → Nat)
    (length privacy_score uniqueness_score : Nat) (feedback : List Str) :
    UsernameStrengthReport :=
  let overall_score := combine privacy_score uniqueness_score
  let clamped_score := min overall_score 100
  let capped_score := if length ≤ 4 then min clamped_score 25
    else clamped_score
  let feedback2 :=
    if length ≤ 4 then
      if feedback.any shortFeedbackCheck then feedback
      else
        "Very short username - highly vulnerable to guessing attacks".toList
          :: feedback
    else feedback
  { score := capped_score
    security_level := securityLevelBand capped_score
    feedback := feedback2 ++ recommendationsFor capped_score
    privacy_score := privacy_score
    uniqueness_score := uniqueness_score }

/-- The accumulation passes of `evaluate_username_security` (main.rs)
before the final combination: the feedback list and the privacy and
uniqueness accumulators. -/
def evaluate_pre (wl : List Str) (username : Str) :
    List Str × Nat × Nat :=
  let username_lower := toLowerStr username
  let is_generated := is_likely_generated_username wl username_lower
  let length := utf8Len username
  let (feedback, privacy_score, uniqueness_score) :=
    if length < 3 then
      (["Username is too short - minimum 3 characters recommended".toList],
       0, 0)
    else if 6 ≤ length ∧ length ≤ 20 then ([], 20, 15)
    else if 20 < length then
      (["Very long usernames may be memorable and stand out".toList], 10, 0)
    else ([], 10, 0)
  let (feedback, privacy_score, uniqueness_score) :=
    match analyze_dictionary_usage wl username_lower with
    | DictionaryUsage.SecureEFFWord word_length =>
      if length ≤ 4 then
        (feedback ++
          ["Short word from secure wordlist - consider longer username".toList],
         privacy_score + 5, uniqueness_score + 10)
      else if 7 ≤ word_length then
        (feedback ++
          ["Uses cryptographically strong word - excellent choice".toList],
         privacy_score + 20, uniqueness_score + 25)
      else if 5 ≤ word_length then
        (feedback ++ ["Uses secure word from cryptographic wordlist".toList],
         privacy_score + 15, uniqueness_score + 20)
      else
        (feedback ++ ["Uses word from secure wordlist".toList],
         privacy_score + 10, uniqueness_score + 15)
    | DictionaryUsage.WeakDictionary =>
      (feedback ++ ["Contains easily guessable dictionary pattern".toList],
       privacy_score - 15, uniqueness_score - 10)
    | DictionaryUsage.CompoundWords =>
      (feedback ++ ["Contains compound words - moderate security".toList],
       privacy_score - 10, uniqueness_score + 5)
    | DictionaryUsage.NonDictionary =>
      if length ≤ 4 then
        (feedback ++
          ["Short username - consider adding length for better security".toList],
         privacy_score, uniqueness_score + 10)
      else (feedback, privacy_score, uniqueness_score + 15)
  let (feedback, privacy_score, uniqueness_score) :=
    if !is_generated then
      match common_words.find? (fun w => isSubstrOf w username_lower) with
      | some word =>
        (feedback ++ ["Contains common word '".toList ++ word ++
          "' - reduces privacy".toList],
         privacy_score - 30, uniqueness_score - 25)
      | none =>
        if length ≤ 4 then
          (feedback, privacy_score + 20, uniqueness_score + 15)
        else (feedback, privacy_score + 25, uniqueness_score + 20)
    else (feedback, privacy_score + 25, uniqueness_score + 20)
  let (privacy_score, feedback) :=
    personalInfoStep length username_lower privacy_score feedback
  let has_numbers := username.any Char.isDigit
  let has_letters := username.any Char.isAlpha
  let has_special := username.any fun c => !c.isAlphanum
  let (feedback, uniqueness_score) :=
    if has_letters && has_numbers then
      (feedback ++ ["Good mix of letters and numbers".toList],
       uniqueness_score + 10)
    else (feedback, uniqueness_score)
  let (feedback, uniqueness_score) :=
    if has_special then
      (feedback ++ ["Special characters add uniqueness".toList],
       uniqueness_score + 5)
    else (feedback, uniqueness_score)
  let (feedback, uniqueness_score) :=
    if !is_generated && contains_sequential_patterns username_lower then
      (feedback ++ ["Contains sequential patterns - less secure".toList],
       uniqueness_score - 15)
    else (feedback, uniqueness_score)
  let (feedback, privacy_score, uniqueness_score) :=
    if is_generated then
      (feedback ++ ["Appears to be securely generated".toList],
       privacy_score + 15, uniqueness_score + 15)
    else (feedback, privacy_score, uniqueness_score)
  (feedback, privacy_score, uniqueness_score)

/-- Embeds `evaluate_username_security` (main.rs), parameterised by the
word-list asset and the f32 score combination: the accumulation passes
followed by the final combination, cap, recommendations and banding. -/
def evaluate_username_security (wl : List Str)
    (combine : Nat → Nat → Nat) (username : Str) : UsernameStrengthReport :=
  let pre := evaluate_pre wl username
  finalizeReport combine (utf8Len username) pre.2.1 pre.2.2 pre.1

/-- Integer approximation of the f32 weighted average
`privacy * 0.6 + uniqueness * 0.4` truncated to an integer, used to
instantiate the abstract `combine` parameter in concrete instances. -/
def combine_scores_int (privacy uniqueness : Nat) : Nat :=
  (privacy * 6 + uniqueness * 4) / 10

/-- Modelled from the spec: the EFF long word list data asset
(`generators/wordlist.rs` and `generators/eff_wordlist.rs`) is not among
the examined sources. The spec describes it as a fixed ordered list of
several thousand lowercase English words with no duplicates; this model
keeps exactly the words that the repository's own tests assert to be
members of the real list (main.rs tests: able, abide, outcome, transport,
quiet, raven). -/
def EFF_LONG_WORD_LIST_model : List Str :=
  ["abide", "able", "outcome", "quiet", "raven", "transport"].map
    String.toList

/-! ## Spec-side comparison definitions -/

/-- Condition following claim C3's words: at least one of the selected
provider's credential fields, as listed in `ForwarderServiceType`
(including AddyIo's and SimpleLogin's `base_url`), is empty after
trimming. -/
def c3_claim_any_credential_blank : ForwarderServiceType → Bool
  | ForwarderServiceType.AddyIo api_token domain base_url =>
    isBlank api_token || isBlank domain || isBlank base_url
  | ForwarderServiceType.DuckDuckGo token => isBlank token
  | ForwarderServiceType.Firefox api_token => isBlank api_token
  | ForwarderServiceType.Fastmail api_token => isBlank api_token
  | ForwarderServiceType.ForwardEmail api_token domain =>
    isBlank api_token || isBlank domain
  | ForwarderServiceType.SimpleLogin api_key base_url =>
    isBlank api_key || isBlank base_url

/-- The credential fields `validate_forwarder_service` actually inspects:
AddyIo's `api_token` and `domain`, DuckDuckGo's `token`, Firefox's and
Fastmail's `api_token`, ForwardEmail's `api_token` and `domain`,
SimpleLogin's `api_key`; the two `base_url` fields are never checked. -/
def checked_credential_blank : ForwarderServiceType → Bool
  | ForwarderServiceType.AddyIo api_token domain _ =>
    isBlank api_token || isBlank domain
  | ForwarderServiceType.DuckDuckGo token => isBlank token
  | ForwarderServiceType.Firefox api_token => isBlank api_token
  | ForwarderServiceType.Fastmail api_token => isBlank api_token
  | ForwarderServiceType.ForwardEmail api_token domain =>
    isBlank api_token || isBlank domain
  | ForwarderServiceType.SimpleLogin api_key _ => isBlank api_key

/-- The provider name `validate_forwarder_service` reports in
`IncompleteApiConfig`. -/
def forwarder_service_name : ForwarderServiceType → Str
  | ForwarderServiceType.AddyIo _ _ _ => "AddyIo".toList
  | ForwarderServiceType.DuckDuckGo _ => "DuckDuckGo".toList
  | ForwarderServiceType.Firefox _ => "Firefox".toList
  | ForwarderServiceType.Fastmail _ => "Fastmail".toList
  | ForwarderServiceType.ForwardEmail _ _ => "ForwardEmail".toList
  | ForwarderServiceType.SimpleLogin _ _ => "SimpleLogin".toList

/-! ## Claim theorems -/

/-- Claim C2, counterexample: the claim says the adapted request's `length`
equals the legacy length, but the `as u8` cast wraps: a legacy config with
`length = 300` is adapted to `length = 44`. -/
theorem c2_counterexample :
    (PasswordGeneratorRequest.ofConfig
      ⟨300, false, false, false, false, false, false, []⟩).length ≠ 300 := by
  decide

/-- Claim C2 (amended): the adapter copies the four `include_*` booleans to
`lowercase`/`uppercase`/`numbers`/`special`, sets `avoid_ambiguous` from
`exclude_similar`, leaves all four minimum counts `none` and does not carry
`custom_exclusions` over; `length` is the legacy length reduced modulo 256
(the `u32` to `u8` cast), so it equals the legacy length whenever that
length is at most 255. -/
theorem c2_amended (config : PasswordConfig) :
    (PasswordGeneratorRequest.ofConfig config).lowercase =
      config.include_lowercase ∧
    (PasswordGeneratorRequest.ofConfig config).uppercase =
      config.include_uppercase ∧
    (PasswordGeneratorRequest.ofConfig config).numbers =
      config.include_numbers ∧
    (PasswordGeneratorRequest.ofConfig config).special =
      config.include_symbols ∧
    (PasswordGeneratorRequest.ofConfig config).avoid_ambiguous =
      config.exclude_similar ∧
    (PasswordGeneratorRequest.ofConfig config).length =
      config.length % 256 ∧
    (config.length ≤ 255 →
      (PasswordGeneratorRequest.ofConfig config).length = config.length) ∧
    (PasswordGeneratorRequest.ofConfig config).min_lowercase = none ∧
    (PasswordGeneratorRequest.ofConfig config).min_uppercase = none ∧
    (PasswordGeneratorRequest.ofConfig config).min_number = none ∧
    (PasswordGeneratorRequest.ofConfig config).min_special = none := by
  refine ⟨rfl, rfl, rfl, rfl, rfl, rfl, ?_, rfl, rfl, rfl, rfl⟩
  intro h
  show config.length % 256 = config.length
  omega

/-- Claim C2 witness: the amended mapping at a concrete legacy config with
a representable length. -/
theorem c2_witness :
    (14 : Nat) ≤ 255 ∧
    (PasswordGeneratorRequest.ofConfig
      ⟨14, true, false, true, false, true, false, "ab".toList⟩).length = 14 :=
  ⟨by decide,
   (c2_amended ⟨14, true, false, true, false, true, false,
     "ab".toList⟩).2.2.2.2.2.2.1 (by decide)⟩

/-- Claim C5: for an estimator score in 0 to 4 the returned score is
exactly 25 times the estimator score, hence one of 0, 25, 50, 75, 100, and
the crack-time display is the fixed five-band lookup, with every other
estimator score mapped to the Unknown-strength band. -/
theorem c5_confirmed (estimate : ZxcvbnEstimate) :
    (estimate.score ≤ 4 →
      (calculate_password_strength estimate).score = estimate.score * 25 ∧
      ((calculate_password_strength estimate).score = 0 ∨
       (calculate_password_strength estimate).score = 25 ∨
       (calculate_password_strength estimate).score = 50 ∨
       (calculate_password_strength estimate).score = 75 ∨
       (calculate_password_strength estimate).score = 100)) ∧
    ((calculate_password_strength estimate).crack_times_display =
      match estimate.score with
      | 0 => "Very weak - could be cracked instantly".toList
      | 1 => "Weak - could be cracked in minutes".toList
      | 2 => "Fair - could be cracked in hours to days".toList
      | 3 => "Good - could take months to crack".toList
      | 4 => "Strong - would take years to crack".toList
      | _ => "Unknown strength".toList) := by
  constructor
  · intro h
    have hmin : (calculate_password_strength estimate).score =
        estimate.score * 25 := by
      show min (estimate.score * 25) 255 = estimate.score * 25
      omega
    refine ⟨hmin, ?_⟩
    rw [hmin]
    omega
  · rfl

/-- Claim C5 witness: the score mapping at the concrete estimator score 3. -/
theorem c5_witness :
    (3 : Nat) ≤ 4 ∧
    ((calculate_password_strength ⟨3, none⟩).score = 3 * 25 ∧
     ((calculate_password_strength ⟨3, none⟩).score = 0 ∨
      (calculate_password_strength ⟨3, none⟩).score = 25 ∨
      (calculate_password_strength ⟨3, none⟩).score = 50 ∨
      (calculate_password_strength ⟨3, none⟩).score = 75 ∨
      (calculate_password_strength ⟨3, none⟩).score = 100)) :=
  ⟨by decide, (c5_confirmed ⟨3, none⟩).1 (by decide)⟩

/-- Claim C7: passphrase validation rejects with `InvalidNumWords 3 20`
exactly when `num_words` lies outside 3 to 20, and succeeds carrying the
request's fields over whenever it lies inside — no other field can cause
a failure. -/
theorem c7_confirmed (request : PassphraseGeneratorRequest) :
    (validate_options request =
        Except.error (PassphraseError.InvalidNumWords 3 20) ↔
      request.num_words < 3 ∨ 20 < request.num_words) ∧
    (3 ≤ request.num_words → request.num_words ≤ 20 →
      validate_options request = Except.ok
        ⟨request.num_words, request.word_separator, request.capitalize,
         request.include_number⟩) := by
  unfold validate_options MINIMUM_PASSPHRASE_NUM_WORDS
    MAXIMUM_PASSPHRASE_NUM_WORDS
  by_cases h : 3 ≤ request.num_words ∧ request.num_words ≤ 20
  · rw [if_neg (by omega)]
    refine ⟨⟨fun hc => absurd hc (by simp), fun hc => absurd hc (by omega)⟩,
      fun _ _ => rfl⟩
  · rw [if_pos (by omega)]
    exact ⟨⟨fun _ => by omega, fun _ => rfl⟩, fun h1 h2 => absurd ⟨h1, h2⟩ h⟩

/-- Claim C7 witness: 2 words are rejected with the bounds 3 and 20, and 20
words are accepted. -/
theorem c7_witness :
    ((2 : Nat) < 3 ∨ 20 < (2 : Nat)) ∧
    validate_options ⟨2, " ".toList, false, false⟩ =
      Except.error (PassphraseError.InvalidNumWords 3 20) ∧
    validate_options ⟨20, " ".toList, true, true⟩ =
      Except.ok ⟨20, " ".toList, true, true⟩ :=
  ⟨Or.inl (by decide),
   (c7_confirmed ⟨2, " ".toList, false, false⟩).1.mpr (Or.inl (by decide)),
   (c7_confirmed ⟨20, " ".toList, true, true⟩).2 (by decide) (by decide)⟩

/-- Claim C8: passphrase generation is deterministic — identical RNG state
and identical validated options yield identical output strings. -/
theorem c8_confirmed (wl : List Str) (rng1 rng2 : Rng)
    (options1 options2 : ValidPassphraseGeneratorOptions)
    (hrng : rng1 = rng2) (hoptions : options1 = options2) :
    passphrase_with_rng wl rng1 options1 =
      passphrase_with_rng wl rng2 options2 := by
  subst hrng
  subst hoptions
  rfl

/-- Claim C8 witness: two runs at a concrete seeded state and options. -/
theorem c8_witness :
    (⟨fun _ => 1, 0⟩ : Rng) = (⟨fun _ => 1, 0⟩ : Rng) ∧
    (⟨4, "-".toList, true, true⟩ : ValidPassphraseGeneratorOptions) =
      ⟨4, "-".toList, true, true⟩ ∧
    passphrase_with_rng EFF_LONG_WORD_LIST_model ⟨fun _ => 1, 0⟩
        ⟨4, "-".toList, true, true⟩ =
      passphrase_with_rng EFF_LONG_WORD_LIST_model ⟨fun _ => 1, 0⟩
        ⟨4, "-".toList, true, true⟩ :=
  ⟨rfl, rfl,
   c8_confirmed EFF_LONG_WORD_LIST_model ⟨fun _ => 1, 0⟩ ⟨fun _ => 1, 0⟩
     ⟨4, "-".toList, true, true⟩ ⟨4, "-".toList, true, true⟩ rfl rfl⟩

/-- Claim C9, counterexample: the string qz18 contains none of the
substrings 199, 200, 201 and none of the personal words, yet
`contains_personal_info_patterns` reports it (it ends with the age pattern
18), so the claimed characterisation fails and the input is penalised
instead of receiving the privacy bonus. -/
theorem c9_counterexample :
    contains_personal_info_patterns "qz18".toList = true ∧
    isSubstrOf "199".toList "qz18".toList = false ∧
    isSubstrOf "200".toList "qz18".toList = false ∧
    isSubstrOf "201".toList "qz18".toList = false ∧
    personalPatterns.all (fun pat => !isSubstrOf pat "qz18".toList) = true ∧
    (personalInfoStep 4 "qz18".toList 50 []).1 = 50 - 25 := by
  decide

/-- Claim C9 (amended): the personal-information check penalises by a
saturating 25 privacy exactly when the lower-cased input contains one of
the substrings 199, 200, 201, ends with one of the age patterns 18, 19,
20, 21, 22, 23, 24, 25, 30, 40, 50, or contains one of the personal words
name, real, official, personal, my, the; every input matching none of
these receives the length-scaled privacy bonus (10 for byte length at most
4, else 15). -/
theorem c9_amended (username : Str) :
    (contains_personal_info_patterns username = true ↔
      (isSubstrOf "199".toList username = true ∨
       isSubstrOf "200".toList username = true ∨
       isSubstrOf "201".toList username = true ∨
       (∃ pat ∈ agePatterns, pat.isSuffixOf username = true) ∨
       (∃ pat ∈ personalPatterns, isSubstrOf pat username = true))) ∧
    (∀ (length privacy_score : Nat) (feedback : List Str),
      (contains_personal_info_patterns username = true →
        personalInfoStep length username privacy_score feedback =
          (privacy_score - 25,
           feedback ++ ["May contain personal information patterns".toList])) ∧
      (contains_personal_info_patterns username = false →
        personalInfoStep length username privacy_score feedback =
          (if length ≤ 4 then privacy_score + 10 else privacy_score + 15,
           feedback))) := by
  constructor
  · unfold contains_personal_info_patterns
    cases h1 : (isSubstrOf "199".toList username ||
        isSubstrOf "200".toList username ||
        isSubstrOf "201".toList username) <;>
      cases h2 : agePatterns.any (fun pat => pat.isSuffixOf username) <;>
        cases h3 : personalPatterns.any
            (fun pat => isSubstrOf pat username) <;>
          (simp_all [List.any_eq_true]; try tauto)
  · intro length privacy_score feedback
    constructor
    · intro h
      simp [personalInfoStep, h]
    · intro h
      simp only [personalInfoStep, h, Bool.false_eq_true, if_false]
      split <;> rfl

/-- Claim C9 witness: the amended penalty rule at the concrete input
myreal (a personal-word match). -/
theorem c9_witness :
    contains_personal_info_patterns "myreal".toList = true ∧
    personalInfoStep 6 "myreal".toList 50 [] =
      (25, ["May contain personal information patterns".toList]) :=
  ⟨by decide, ((c9_amended "myreal".toList).2 6 50 []).1 (by decide)⟩

/-- Claim C10: subaddress email validation measures the 5-character minimum
on the untrimmed input: the email a at b followed by two spaces trims to 3
characters yet passes `validate_email` and full request validation, and
subaddress generation produces an alias whose domain part keeps the
trailing whitespace. -/
theorem c10_confirmed :
    utf8Len (rtrim "a@b  ".toList) < 5 ∧
    validate_email "a@b  ".toList = Except.ok () ∧
    UsernameGeneratorRequest.validate
      (UsernameGeneratorRequest.Subaddress
        (AppendType.WebsiteName "w".toList) "a@b  ".toList) =
      Except.ok () ∧
    username_subaddress ⟨fun _ => 0, 0⟩
      (AppendType.WebsiteName "w".toList) "a@b  ".toList =
      some "a+w@b  ".toList ∧
    rtrim "b  ".toList ≠ "b  ".toList := by
  refine ⟨by decide, rfl, rfl, rfl, by decide⟩

/-- Claim C3, counterexample: an AddyIo configuration with non-blank
`api_token` and `domain` but an empty `base_url` has a blank credential
field in the claim's sense, yet validation succeeds — the claimed
equivalence between failure and any blank credential field is false. -/
theorem c3_counterexample :
    ¬ (∀ service : ForwarderServiceType,
        validate_forwarder_service service =
            Except.error (UsernameError.IncompleteApiConfig
              (forwarder_service_name service)) ↔
          c3_claim_any_credential_blank service = true) := by
  intro h
  have h1 := (h (ForwarderServiceType.AddyIo "t".toList "d".toList [])).mpr
    (by decide)
  have h2 : validate_forwarder_service
      (ForwarderServiceType.AddyIo "t".toList "d".toList []) =
      Except.ok () := rfl
  rw [h1] at h2
  exact Except.noConfusion h2

/-- Helper for claim C3: an if-then-else between an error and `ok` equals
each branch exactly when its condition has the matching value. -/
theorem ite_error_ok_iff (c : Bool) (e : UsernameError) :
    ((if c then Except.error e else Except.ok ()) =
        (Except.error e : Except UsernameError Unit) ↔ c = true) ∧
    ((if c then Except.error e else Except.ok ()) =
        (Except.ok () : Except UsernameError Unit) ↔ c = false) := by
  cases c <;> simp

/-- Claim C3 (amended): validation fails with `IncompleteApiConfig` naming
the selected provider if and only if one of the credential fields the code
checks is empty after trimming — AddyIo's `api_token` or `domain`,
DuckDuckGo's `token`, Firefox's or Fastmail's `api_token`, ForwardEmail's
`api_token` or `domain`, SimpleLogin's `api_key`; the `base_url` fields of
AddyIo and SimpleLogin are never inspected, and generation proceeds to the
adapter exactly when all checked fields are non-blank. -/
theorem c3_amended (service : ForwarderServiceType) :
    (validate_forwarder_service service =
        Except.error (UsernameError.IncompleteApiConfig
          (forwarder_service_name service)) ↔
      checked_credential_blank service = true) ∧
    (validate_forwarder_service service = Except.ok () ↔
      checked_credential_blank service = false) := by
  cases service <;> exact ite_error_ok_iff _ _

/-! ## Claim C1: the short-username hard cap -/

/-- The score field of `finalizeReport` spelled out. -/
theorem finalizeReport_score (combine : Nat → Nat → Nat)
    (length privacy_score uniqueness_score : Nat) (feedback : List Str) :
    (finalizeReport combine length privacy_score uniqueness_score
        feedback).score =
      if length ≤ 4 then
        min (min (combine privacy_score uniqueness_score) 100) 25
      else min (combine privacy_score uniqueness_score) 100 := rfl

/-- The feedback field of `finalizeReport` spelled out. -/
theorem finalizeReport_feedback (combine : Nat → Nat → Nat)
    (length privacy_score uniqueness_score : Nat) (feedback : List Str) :
    (finalizeReport combine length privacy_score uniqueness_score
        feedback).feedback =
      (if length ≤ 4 then
        (if feedback.any shortFeedbackCheck then feedback
         else
           "Very short username - highly vulnerable to guessing attacks".toList
             :: feedback)
       else feedback) ++
      recommendationsFor
        ((finalizeReport combine length privacy_score uniqueness_score
          feedback).score) := rfl

/-- The hard cap at the tail of `evaluate_username_security`: for byte
length at most 4 the final score is at most 25 and the final feedback
contains a shortness advisory, whatever the accumulated scores were. -/
theorem finalizeReport_cap (combine : Nat → Nat → Nat)
    (length privacy_score uniqueness_score : Nat) (feedback : List Str)
    (hlen : length ≤ 4) :
    (finalizeReport combine length privacy_score uniqueness_score
      feedback).score ≤ 25 ∧
    ∃ f ∈ (finalizeReport combine length privacy_score uniqueness_score
        feedback).feedback,
      (isSubstrOf "too short".toList f = true ∨
       isSubstrOf "Short".toList f = true ∨
       isSubstrOf "Very short".toList f = true) := by
  constructor
  · rw [finalizeReport_score, if_pos hlen]
    exact Nat.min_le_right _ _
  · rw [finalizeReport_feedback, if_pos hlen]
    cases hany : feedback.any shortFeedbackCheck with
    | true =>
      obtain ⟨f, hf, hcheck⟩ := List.any_eq_true.mp hany
      refine ⟨f, List.mem_append_left _ hf, ?_⟩
      have hor : isSubstrOf "too short".toList f = true ∨
          isSubstrOf "Short".toList f = true := by
        simpa [shortFeedbackCheck] using hcheck
      rcases hor with h | h
      · exact Or.inl h
      · exact Or.inr (Or.inl h)
    | false =>
      refine
        ⟨"Very short username - highly vulnerable to guessing attacks".toList,
         List.mem_append_left _ (List.mem_cons_self _ _),
         Or.inr (Or.inr (by decide))⟩

/-- Claim C1: every username whose byte length is at most 4 gets a report
whose final score is capped at 25 and whose feedback contains an advisory
mentioning shortness, for every word list and every score-combination
behaviour. -/
theorem c1_confirmed (wl : List Str) (combine : Nat → Nat → Nat)
    (username : Str) (hlen : utf8Len username ≤ 4) :
    (evaluate_username_security wl combine username).score ≤ 25 ∧
    ∃ f ∈ (evaluate_username_security wl combine username).feedback,
      (isSubstrOf "too short".toList f = true ∨
       isSubstrOf "Short".toList f = true ∨
       isSubstrOf "Very short".toList f = true) :=
  finalizeReport_cap combine (utf8Len username)
    (evaluate_pre wl username).2.1 (evaluate_pre wl username).2.2
    (evaluate_pre wl username).1 hlen

/-- Claim C1 witness: the cap at the concrete short username able. -/
theorem c1_witness :
    utf8Len "able".toList ≤ 4 ∧
    ((evaluate_username_security EFF_LONG_WORD_LIST_model combine_scores_int
        "able".toList).score ≤ 25 ∧
     ∃ f ∈ (evaluate_username_security EFF_LONG_WORD_LIST_model
         combine_scores_int "able".toList).feedback,
       (isSubstrOf "too short".toList f = true ∨
        isSubstrOf "Short".toList f = true ∨
        isSubstrOf "Very short".toList f = true)) :=
  ⟨by decide,
   c1_confirmed EFF_LONG_WORD_LIST_model combine_scores_int "able".toList
     (by decide)⟩

/-! ## Claim C4: the hardware id format -/

/-- SHA-256 digests are 32 bytes long. -/
theorem sha256Bytes_length (msg : List Nat) :
    (sha256Bytes msg).length = 32 :=
  rfl

/-- SHA-256 test vector for the empty message. -/
theorem sha256_empty_test_vector :
    sha256Bytes [] =
      [0xe3, 0xb0, 0xc4, 0x42, 0x98, 0xfc, 0x1c, 0x14, 0x9a, 0xfb, 0xf4,
       0xc8, 0x99, 0x6f, 0xb9, 0x24, 0x27, 0xae, 0x41, 0xe4, 0x64, 0x9b,
       0x93, 0x4c, 0xa4, 0x95, 0x99, 0x1b, 0x78, 0x52, 0xb8, 0x55] := by
  decide

/-- SHA-256 test vector for the message abc. -/
theorem sha256_abc_test_vector :
    sha256Bytes (utf8Encode "abc".toList) =
      [0xba, 0x78, 0x16, 0xbf, 0x8f, 0x01, 0xcf, 0xea, 0x41, 0x41, 0x40,
       0xde, 0x5d, 0xae, 0x22, 0x23, 0xb0, 0x03, 0x61, 0xa3, 0x96, 0x17,
       0x7a, 0x9c, 0xb4, 0x10, 0xff, 0x61, 0xf2, 0x00, 0x15, 0xad] := by
  decide

/-- Rendering bytes as hex doubles the length. -/
theorem cmap_byteToHexUpper_length (l : List Nat) :
    (cmap byteToHexUpper l).length = 2 * l.length := by
  induction l with
  | nil => rfl
  | cons b t ih =>
    simp [cmap, byteToHexUpper, List.length_append, ih]
    omega

/-- Membership in a concatenation map comes from one of the pieces. -/
theorem mem_cmap {f : α → List β} {c : β} : ∀ {l : List α},
    c ∈ cmap f l → ∃ a ∈ l, c ∈ f a := by
  intro l
  induction l with
  | nil => intro h; simp [cmap] at h
  | cons a t ih =>
    intro h
    rcases List.mem_append.mp h with h | h
    · exact ⟨a, List.mem_cons_self _ _, h⟩
    · obtain ⟨x, hx, hc⟩ := ih h
      exact ⟨x, List.mem_cons_of_mem _ hx, hc⟩

/-- Every character produced by `byteToHexUpper` is an uppercase hex
digit. -/
theorem byteToHexUpper_subset (b : Nat) :
    ∀ c ∈ byteToHexUpper b, c ∈ "0123456789ABCDEF".toList := by
  have htab : ∀ n : Nat,
      "0123456789ABCDEF".toList.getD (n % 16) '0' ∈
        "0123456789ABCDEF".toList := by
    intro n
    have h16 : n % 16 < 16 := Nat.mod_lt _ (by norm_num)
    set k := n % 16 with hk
    interval_cases k <;> decide
  intro c hc
  unfold byteToHexUpper at hc
  simp only [List.mem_cons, List.not_mem_nil, or_false] at hc
  rcases hc with rfl | rfl
  · exact htab _
  · exact htab _

/-- Claim C4, counterexample: the claim gives the total output length as
19 characters, but the HWID format is 24 characters long. -/
theorem c4_counterexample : (format_machine_id "".toList).length ≠ 19 := by
  decide

/-- Claim C4 (amended): `format_machine_id` is deterministic and every
output is the literal HWID- header followed by four dash-separated groups
of four uppercase hexadecimal characters — 24 characters in total, not
19. -/
theorem c4_amended :
    (∀ s t : Str, s = t → format_machine_id s = format_machine_id t) ∧
    (∀ s : Str, ∃ g1 g2 g3 g4 : Str,
      format_machine_id s =
        "HWID-".toList ++ g1 ++ '-' :: g2 ++ '-' :: g3 ++ '-' :: g4 ∧
      g1.length = 4 ∧ g2.length = 4 ∧ g3.length = 4 ∧ g4.length = 4 ∧
      (∀ c ∈ g1 ++ g2 ++ g3 ++ g4, c ∈ "0123456789ABCDEF".toList) ∧
      (format_machine_id s).length = 24) := by
  constructor
  · intro s t h
    rw [h]
  · intro s
    set hex := cmap byteToHexUpper ((sha256Bytes (utf8Encode s)).take 8)
      with hhex
    have hlen : hex.length = 16 := by
      rw [hhex, cmap_byteToHexUpper_length, List.length_take,
        sha256Bytes_length]
      norm_num
    have hfmt : format_machine_id s =
        "HWID-".toList ++ hex.take 4 ++ '-' :: ((hex.drop 4).take 4) ++
          '-' :: ((hex.drop 8).take 4) ++ '-' :: ((hex.drop 12).take 4) :=
      rfl
    refine ⟨hex.take 4, (hex.drop 4).take 4, (hex.drop 8).take 4,
      (hex.drop 12).take 4, hfmt, ?_, ?_, ?_, ?_, ?_, ?_⟩
    · rw [List.length_take]; omega
    · rw [List.length_take, List.length_drop]; omega
    · rw [List.length_take, List.length_drop]; omega
    · rw [List.length_take, List.length_drop]; omega
    · intro c hc
      have hmem : c ∈ hex := by
        rcases List.mem_append.mp hc with h | h
        · rcases List.mem_append.mp h with h | h
          · rcases List.mem_append.mp h with h | h
            · exact List.mem_of_mem_take h
            · exact List.mem_of_mem_drop (List.mem_of_mem_take h)
          · exact List.mem_of_mem_drop (List.mem_of_mem_take h)
        · exact List.mem_of_mem_drop (List.mem_of_mem_take h)
      rw [hhex] at hmem
      obtain ⟨b, _, hcb⟩ := mem_cmap hmem
      exact byteToHexUpper_subset b c hcb
    · rw [hfmt]
      simp [List.length_append, List.length_take, List.length_drop, hlen]

/-- Claim C4 witness: determinism applied at a concrete machine id. -/
theorem c4_witness :
    ("x".toList : Str) = "x".toList ∧
    format_machine_id "x".toList = format_machine_id "x".toList :=
  ⟨rfl, c4_amended.1 "x".toList "x".toList rfl⟩

/-! ## Claim C6: separator occurrences and the single appended digit -/

/-- A list is a Boolean prefix of itself followed by anything. -/
theorem isPrefixOf_append_self (l r : Str) : l.isPrefixOf (l ++ r) = true := by
  induction l with
  | nil => cases r <;> rfl
  | cons a t ih => simp [List.isPrefixOf, ih]

/-- Skipping exactly the length of a leading block lands after it. -/
theorem countOccGo_skip (c : Char) (cs : Str) (l r : Str) :
    countOccGo c cs l.length (l ++ r) = countOccGo c cs 0 r := by
  induction l with
  | nil => rfl
  | cons a t ih => simpa [countOccGo] using ih

/-- Scanning a block that does not contain the pattern head finds
nothing. -/
theorem countOccGo_word (c : Char) (cs : Str) (w r : Str) (hw : c ∉ w) :
    countOccGo c cs 0 (w ++ r) = countOccGo c cs 0 r := by
  induction w with
  | nil => rfl
  | cons a t ih =>
    have hac : c ≠ a := fun h => hw (h ▸ List.mem_cons_self a t)
    have hpre : (c :: cs).isPrefixOf (a :: (t ++ r)) = false := by
      simp [List.isPrefixOf, hac]
    have ht : c ∉ t := fun h => hw (List.mem_cons_of_mem a h)
    simpa [countOccGo, hpre] using ih ht

/-- Scanning from the start of a separator occurrence counts it and
resumes after it. -/
theorem countOccGo_sep (c : Char) (cs : Str) (r : Str) :
    countOccGo c cs 0 ((c :: cs) ++ r) = 1 + countOccGo c cs 0 r := by
  have hpre : (c :: cs).isPrefixOf (c :: (cs ++ r)) = true :=
    isPrefixOf_append_self (c :: cs) r
  simp [countOccGo, hpre, countOccGo_skip]

/-- Joining words whose bodies avoid the separator's first character yields
exactly one separator occurrence per adjacent pair. -/
theorem countOccGo_joinSep (c : Char) (cs : Str) :
    ∀ ws : List Str, (∀ w ∈ ws, c ∉ w) →
      countOccGo c cs 0 (joinSep (c :: cs) ws) = ws.length - 1 := by
  intro ws
  induction ws with
  | nil => intro _; rfl
  | cons w t ih =>
    intro hall
    cases t with
    | nil =>
      have h0 := countOccGo_word c cs w [] (hall w (List.mem_cons_self _ _))
      rw [List.append_nil] at h0
      simpa [joinSep] using h0
    | cons w' t' =>
      have hw : c ∉ w := hall w (List.mem_cons_self _ _)
      have hrest : ∀ x ∈ w' :: t', c ∉ x := fun x hx =>
        hall x (List.mem_cons_of_mem _ hx)
      calc countOccGo c cs 0 (joinSep (c :: cs) (w :: w' :: t'))
          = countOccGo c cs 0 (w ++ ((c :: cs) ++
              joinSep (c :: cs) (w' :: t'))) := by simp [joinSep]
        _ = countOccGo c cs 0 ((c :: cs) ++ joinSep (c :: cs) (w' :: t')) :=
            countOccGo_word c cs w _ hw
        _ = 1 + countOccGo c cs 0 (joinSep (c :: cs) (w' :: t')) :=
            countOccGo_sep c cs _
        _ = 1 + ((w' :: t').length - 1) := by rw [ih hrest]
        _ = (w :: w' :: t').length - 1 := by
            simp only [List.length_cons]
            omega

/-- `gen_words` yields exactly the requested number of words. -/
theorem gen_words_length (wl : List Str) :
    ∀ (n : Nat) (rng : Rng), (gen_words wl rng n).1.length = n := by
  intro n
  induction n with
  | zero => intro rng; rfl
  | succ k ih =>
    intro rng
    simpa [gen_words] using ih (rng.chooseStr wl).2

/-- The assembled passphrase word list has `num_words` entries. -/
theorem passphrase_words_length (wl : List Str) (rng : Rng)
    (options : ValidPassphraseGeneratorOptions) :
    (passphrase_words wl rng options).length = options.num_words := by
  unfold passphrase_words
  have hg := gen_words_length wl options.num_words rng
  split <;>
    split <;>
      simp_all [capitalize_words, include_number_in_words, List.length_set,
        List.length_map]

/-- Claim C6 (amended): the generated passphrase is `num_words` words
joined by the separator, containing exactly `num_words - 1` separator
occurrences whenever the separator is non-empty and its first character
occurs in none of the generated words (as stated, with only a
no-substring condition, separators overlapping a word boundary break the
count); and the include-number step appends exactly one decimal digit to
exactly one of the words, never more. -/
theorem c6_amended :
    (∀ (wl : List Str) (rng : Rng)
       (options : ValidPassphraseGeneratorOptions) (c : Char) (cs : Str),
      options.word_separator = c :: cs →
      (∀ w ∈ passphrase_words wl rng options, c ∉ w) →
      (passphrase_words wl rng options).length = options.num_words ∧
      countOcc options.word_separator (passphrase_with_rng wl rng options) =
        options.num_words - 1) ∧
    (∀ (rng : Rng) (words : List Str), words ≠ [] →
      ∃ number_idx d, number_idx < words.length ∧ d ≤ 9 ∧
        (include_number_in_words rng words).1 =
          words.set number_idx
            (words.getD number_idx [] ++ [digitChar d])) := by
  constructor
  · intro wl rng options c cs hsep hall
    refine ⟨passphrase_words_length wl rng options, ?_⟩
    rw [hsep]
    show countOccGo c cs 0 (passphrase_with_rng wl rng options) =
      options.num_words - 1
    unfold passphrase_with_rng
    rw [hsep, countOccGo_joinSep c cs _ hall,
      passphrase_words_length wl rng options]
  · intro rng words hne
    have hpos : 0 < words.length := List.length_pos.mpr hne
    refine ⟨(rng.genRange 0 words.length).1,
      ((rng.genRange 0 words.length).2.genRange 0 10).1, ?_, ?_, rfl⟩
    · show 0 + rng.next.1 % (words.length - 0) < words.length
      have := Nat.mod_lt rng.next.1 (y := words.length - 0) (by omega)
      omega
    · show 0 + ((rng.genRange 0 words.length).2.next.1 % (10 - 0)) ≤ 9
      omega

/-- Claim C6, counterexample: with the separator tt and three generated
words transport (a word the repository's tests assert to be in the real
EFF list), the separator is non-empty and not a substring of any generated
word, yet the joined passphrase contains 4 occurrences of tt instead of
the claimed 2 — occurrences straddle the word/separator boundaries. -/
theorem c6_counterexample :
    ("tt".toList : Str) ≠ [] ∧
    (∀ w ∈ passphrase_words EFF_LONG_WORD_LIST_model ⟨fun _ => 5, 0⟩
        ⟨3, "tt".toList, false, false⟩,
      isSubstrOf "tt".toList w = false) ∧
    countOcc "tt".toList
        (passphrase_with_rng EFF_LONG_WORD_LIST_model ⟨fun _ => 5, 0⟩
          ⟨3, "tt".toList, false, false⟩) ≠ 3 - 1 := by
  refine ⟨by decide, by decide, by decide⟩

/-- Claim C6 witness: the amended statement at a dash separator (its
character occurs in no generated word) and at a concrete digit
insertion. -/
theorem c6_witness :
    ((⟨3, "-".toList, false, false⟩ :
        ValidPassphraseGeneratorOptions).word_separator =
      '-' :: ([] : Str)) ∧
    (∀ w ∈ passphrase_words EFF_LONG_WORD_LIST_model ⟨fun _ => 0, 0⟩
        ⟨3, "-".toList, false, false⟩, '-' ∉ w) ∧
    ((passphrase_words EFF_LONG_WORD_LIST_model ⟨fun _ => 0, 0⟩
        ⟨3, "-".toList, false, false⟩).length = 3 ∧
     countOcc "-".toList
        (passphrase_with_rng EFF_LONG_WORD_LIST_model ⟨fun _ => 0, 0⟩
          ⟨3, "-".toList, false, false⟩) = 3 - 1) ∧
    (["abide".toList, "able".toList] ≠ ([] : List Str) ∧
     ∃ number_idx d, number_idx < (["abide".toList, "able".toList] :
         List Str).length ∧ d ≤ 9 ∧
       (include_number_in_words ⟨fun _ => 3, 0⟩
           ["abide".toList, "able".toList]).1 =
         (["abide".toList, "able".toList] : List Str).set number_idx
           ((["abide".toList, "able".toList] : List Str).getD number_idx []
             ++ [digitChar d])) :=
  ⟨rfl, by decide,
   c6_amended.1 EFF_LONG_WORD_LIST_model ⟨fun _ => 0, 0⟩
     ⟨3, "-".toList, false, false⟩ '-' [] rfl (by decide),
   by decide,
   c6_amended.2 ⟨fun _ => 3, 0⟩ ["abide".toList, "able".toList]
     (by decide)⟩

end Securegen
